import Mathlib

/-!
Shallow embedding of the vacation-planning pipeline
(`src/agent/tools.py`, `src/agent/graph.py`, `src/agent/state.py`).

Modelling conventions:
* Python floats are modelled as rationals (`ℚ`); `round(x, 2)` is modelled
  as round-half-to-even at two decimal places (`round2`), which is Python's
  documented rounding mode.
* The pandas CSV reads are modelled by passing the catalog rows
  (destinations, attractions) as explicit lists.
* The pandas sort is modelled by a stable insertion sort over the same
  comparison keys; no claim below depends on the order among equal keys.
* The regex searches of `parse_request` are modelled character by character
  over the lowered request text, with Python `re.search` semantics
  (leftmost start position wins, alternatives tried left to right,
  greedy repetition with backtracking, `\b` word boundaries).
* Failures of the Python code (e.g. subscripting `None`) are modelled by a
  `fatal` result carrying the stage name and the state reached so far.
-/

namespace Planning

/-- Round half to even to an integer, the rounding mode of Python `round`. -/
def rhe (q : ℚ) : ℤ :=
  if q - (⌊q⌋ : ℚ) < 1/2 then ⌊q⌋
  else if 1/2 < q - (⌊q⌋ : ℚ) then ⌊q⌋ + 1
  else if ⌊q⌋ % 2 = 0 then ⌊q⌋ else ⌊q⌋ + 1

/-- Python `round(x, 2)`: round half to even at two decimal places. -/
def round2 (q : ℚ) : ℚ := (rhe (q * 100) : ℚ) / 100

/-! ### Character helpers for the regex model (`parse_request`) -/

/-- Python regex `\d`. -/
def is_digit_ch (c : Char) : Bool := decide (48 ≤ c.toNat ∧ c.toNat ≤ 57)

/-- Python regex `\w` (ASCII): letters, digits, underscore. -/
def is_word_ch (c : Char) : Bool :=
  is_digit_ch c || decide (97 ≤ c.toNat ∧ c.toNat ≤ 122) ||
    decide (65 ≤ c.toNat ∧ c.toNat ≤ 90) || c == '_'

/-- Python regex `\s` (ASCII whitespace). -/
def is_space_ch (c : Char) : Bool :=
  c == ' ' || c == '\t' || c == '\n' || c == '\r' || c == '\x0b' || c == '\x0c'

/-- Numeric value of a digit string, as computed by Python `int`. -/
def digits_val (l : List Char) : ℕ := l.foldl (fun n c => 10 * n + (c.toNat - 48)) 0

/-- Greedy `\s*`. -/
def skip_ws (l : List Char) : List Char := l.dropWhile is_space_ch

/-- Greedy `\s+`: at least one whitespace character, then skip the rest. -/
def skip_ws1 : List Char → Option (List Char)
  | [] => none
  | c :: rest => if is_space_ch c then some (skip_ws rest) else none

/-- Match a literal string, returning the remainder on success. -/
def expect_str : List Char → List Char → Option (List Char)
  | [], l => some l
  | _ :: _, [] => none
  | c :: cs, x :: xs => if x == c then expect_str cs xs else none

/-- Word boundary `\b` after a word character: end of input or a non-word char. -/
def boundary_after : List Char → Bool
  | [] => true
  | c :: _ => !(is_word_ch c)

/-- Python `str.strip`. -/
def py_strip (l : List Char) : List Char :=
  ((l.dropWhile is_space_ch).reverse.dropWhile is_space_ch).reverse

/-- Python `str.lower` on a string, as a character list. -/
def lower_chars (s : String) : List Char := s.data.map Char.toLower

/-- The lowered, stripped request text that every regex in `parse_request`
runs over (`text = text.strip()` then `text.lower()`). -/
def lowered_of (text : String) : List Char := (py_strip text.data).map Char.toLower

/-- Match of the needle at the first position, for the substring scan. -/
def starts_with_chars : List Char → List Char → Bool
  | [], _ => true
  | _ :: _, [] => false
  | c :: cs, x :: xs => c == x && starts_with_chars cs xs

/-- Python `needle in hay` substring containment. -/
def contains_chars (needle : List Char) : List Char → Bool
  | [] => needle.isEmpty
  | x :: xs => starts_with_chars needle (x :: xs) || contains_chars needle xs

/-- Python `str.split(",")`, accumulator style. -/
def split_on_comma (acc : List Char) : List Char → List (List Char)
  | [] => [acc.reverse]
  | c :: rest => if c == ',' then acc.reverse :: split_on_comma [] rest else split_on_comma (c :: acc) rest

/-! ### The day-count regex `\b(\d{1,2})\s*-\s*day\b|\b(\d{1,2})\s*day\b` -/

/-- Tail `\s*-\s*day\b` of the first alternative. -/
def day_tail1 (r : List Char) : Bool :=
  match skip_ws r with
  | '-' :: r2 =>
    match expect_str ['d', 'a', 'y'] (skip_ws r2) with
    | some r3 => boundary_after r3
    | none => false
  | _ => false

/-- Tail `\s*day\b` of the second alternative. -/
def day_tail2 (r : List Char) : Bool :=
  match expect_str ['d', 'a', 'y'] (skip_ws r) with
  | some r3 => boundary_after r3
  | none => false

/-- Try the day pattern at one start position (first char known to be a digit
candidate): alternative 1 before alternative 2, two digits greedily before one. -/
def try_days_at : List Char → Option ℕ
  | [] => none
  | [_] => none
  | c1 :: c2 :: rest =>
    if is_digit_ch c1 && is_digit_ch c2 then
      if day_tail1 rest then some (digits_val [c1, c2])
      else if day_tail1 (c2 :: rest) then some (digits_val [c1])
      else if day_tail2 rest then some (digits_val [c1, c2])
      else if day_tail2 (c2 :: rest) then some (digits_val [c1])
      else none
    else if is_digit_ch c1 then
      if day_tail1 (c2 :: rest) then some (digits_val [c1])
      else if day_tail2 (c2 :: rest) then some (digits_val [c1])
      else none
    else none

/-- `re.search` scan for the day pattern: leftmost start position wins.
The flag records whether the previous character was a word character
(for the leading `\b`; the pattern starts with `\d`, a word character). -/
def scan_days : Bool → List Char → Option ℕ
  | _, [] => none
  | prevWord, c :: rest =>
    match (if !prevWord && is_digit_ch c then try_days_at (c :: rest) else none) with
    | some n => some n
    | none => scan_days (is_word_ch c) rest

/-! ### The traveler regex `\bfor\s+(\d{1,2})\s+(people|persons|travelers)\b` -/

/-- Alternation `(people|persons|travelers)\b`, tried left to right. -/
def trav_words_ok (r : List Char) : Bool :=
  (match expect_str ['p', 'e', 'o', 'p', 'l', 'e'] r with
   | some r2 => boundary_after r2
   | none => false) ||
  (match expect_str ['p', 'e', 'r', 's', 'o', 'n', 's'] r with
   | some r2 => boundary_after r2
   | none => false) ||
  (match expect_str ['t', 'r', 'a', 'v', 'e', 'l', 'e', 'r', 's'] r with
   | some r2 => boundary_after r2
   | none => false)

/-- Tail `\s+(people|persons|travelers)\b` after the digit group. -/
def trav_tail (r : List Char) : Bool :=
  match skip_ws1 r with
  | some r2 => trav_words_ok r2
  | none => false

/-- The digit group `(\d{1,2})\s+(people|persons|travelers)\b` after the
whitespace following `for`. -/
def try_trav_digits : List Char → Option ℕ
  | c1 :: c2 :: rest =>
    if is_digit_ch c1 && is_digit_ch c2 then
      if trav_tail rest then some (digits_val [c1, c2])
      else if trav_tail (c2 :: rest) then some (digits_val [c1])
      else none
    else if is_digit_ch c1 then
      if trav_tail (c2 :: rest) then some (digits_val [c1]) else none
    else none
  | _ => none

/-- After the literal `for`: `\s+(\d{1,2})\s+(people|persons|travelers)\b`. -/
def try_trav_at (l : List Char) : Option ℕ :=
  match skip_ws1 l with
  | none => none
  | some r => try_trav_digits r

/-- `re.search` scan for the traveler pattern. -/
def scan_trav : Bool → List Char → Option ℕ
  | _, [] => none
  | prevWord, c :: rest =>
    match (if !prevWord && c == 'f' then
             match expect_str ['o', 'r'] rest with
             | some r2 => try_trav_at r2
             | none => none
           else none) with
    | some n => some n
    | none => scan_trav (is_word_ch c) rest

/-! ### The budget regex `\bbudget\s*\$?\s*(\d{3,6})\b|\bunder\s*\$?\s*(\d{3,6})\b` -/

/-- Tail `\s*\$?\s*(\d{3,6})\b` after the keyword. A digit run longer than
six characters never matches: every shorter greedy retry is followed by a
digit, which is a word character, so the trailing `\b` fails. -/
def money_tail (r : List Char) : Option ℕ :=
  let r1 := skip_ws r
  let r2 := match r1 with
    | '$' :: t => skip_ws t
    | _ => r1
  let ds := r2.takeWhile is_digit_ch
  let rest := r2.dropWhile is_digit_ch
  if 3 ≤ ds.length && ds.length ≤ 6 && boundary_after rest then some (digits_val ds) else none

/-- `re.search` scan for the budget pattern. -/
def scan_budget : Bool → List Char → Option ℕ
  | _, [] => none
  | prevWord, c :: rest =>
    match (if !prevWord then
             match expect_str ['b', 'u', 'd', 'g', 'e', 't'] (c :: rest) with
             | some r2 => money_tail r2
             | none =>
               match expect_str ['u', 'n', 'd', 'e', 'r'] (c :: rest) with
               | some r2 => money_tail r2
               | none => none
           else none) with
    | some n => some n
    | none => scan_budget (is_word_ch c) rest

/-! ### Data model (`src/agent/state.py` and the CSV schemas) -/

/-- A row of `data/destinations.csv` (a `CatalogEntry` in the spec). -/
structure Destination where
  city : String
  country : String
  region : String
  style_tags : String
  avg_lodging_per_night : ℚ
  avg_food_per_day : ℚ
  avg_local_transport_per_day : ℚ
deriving DecidableEq, Repr

/-- A row of `data/attractions.csv` (an `AttractionEntry` in the spec). -/
structure AttractionItem where
  city : String
  name : String
  tag : String
  typical_hours : ℚ
  cost_est : ℚ
deriving DecidableEq, Repr

/-- One day of the itinerary plan. -/
structure DayPlan where
  day : ℕ
  items : List AttractionItem
deriving DecidableEq, Repr

/-- The dictionary returned by `build_itinerary`. -/
structure Itinerary where
  city : String
  days : ℕ
  pace : String
  plan : List DayPlan
deriving DecidableEq, Repr

/-- The constraints dictionary produced by `parse_request`. -/
structure Constraints where
  origin : String
  days : ℕ
  travelers : ℕ
  budget : ℚ
  region : Option String
  pace : String
  interests : List String
  month_hint : Option String
  flight_est_per_person : ℚ
deriving DecidableEq, Repr

/-- A trip concept produced by `propose_trip_concepts`. -/
structure TripConcept where
  title : String
  city : String
  why : String
  destination : Destination
deriving DecidableEq, Repr

/-- The dictionary returned by `estimate_budget`. -/
structure EstBudget where
  lodging : ℚ
  food : ℚ
  local_transport : ℚ
  flights_est : ℚ
  total_est : ℚ
deriving DecidableEq, Repr

/-- The budget dictionary built by `compute_budget` / `validate_and_adjust`. -/
structure BudgetBreakdown where
  lodging : ℚ
  food : ℚ
  local_transport : ℚ
  flights_est : ℚ
  total_est : ℚ
  activities_est : ℚ
  grand_total_est : ℚ
  within_budget : Bool
deriving DecidableEq, Repr

/-! ### `parse_request` (`src/agent/graph.py` lines 30-89) -/

/-- The defaults dictionary at the top of `parse_request`. -/
def default_constraints : Constraints :=
  { origin := "Boston", days := 5, travelers := 2, budget := 2000, region := none,
    pace := "medium", interests := ["food", "museums"], month_hint := none,
    flight_est_per_person := 450 }

/-- The fixed interest vocabulary scanned by `parse_request`. -/
def interest_vocab : List String :=
  ["food", "museums", "nature", "walk", "history", "shopping", "architecture",
   "coastal", "scenic", "art", "nightlife", "markets", "roadtrip"]

/-- The region vocabulary. -/
def region_vocab : List String := ["europe", "asia", "americas"]

/-- The pace vocabulary. -/
def pace_vocab : List String := ["slow", "medium", "fast"]

/-- The month vocabulary. -/
def month_vocab : List String :=
  ["january", "february", "march", "april", "may", "june", "july", "august",
   "september", "october", "november", "december"]

/-- First vocabulary word contained in the lowered text (the `for ... break` loops). -/
def find_first_contained : List String → List Char → Option String
  | [], _ => none
  | v :: rest, hay =>
    if contains_chars v.data hay then some v else find_first_contained rest hay

/-- Python `str.title` on a single lowercase word. -/
def capitalize_str (s : String) : String :=
  match s.data with
  | [] => ⟨[]⟩
  | c :: rest => ⟨c.toUpper :: rest⟩

/-- `parse_request`: fill the defaults dictionary from the regex and
substring scans over the lowered request text. -/
def parse_request (text : String) : Constraints :=
  let lowered := lowered_of text
  let days := match scan_days false lowered with
    | some n => n
    | none => default_constraints.days
  let budget := match scan_budget false lowered with
    | some n => (n : ℚ)
    | none => default_constraints.budget
  let travelers := match scan_trav false lowered with
    | some n => n
    | none => default_constraints.travelers
  let region := find_first_contained region_vocab lowered
  let pace := match find_first_contained pace_vocab lowered with
    | some p => p
    | none => default_constraints.pace
  let found := interest_vocab.filter (fun k => contains_chars k.data lowered)
  let interests := if found.isEmpty then default_constraints.interests else found.take 3
  let month_hint := (find_first_contained month_vocab lowered).map capitalize_str
  { default_constraints with
    days := days, budget := budget, travelers := travelers, region := region,
    pace := pace, interests := interests, month_hint := month_hint }

/-! ### Tools (`src/agent/tools.py`) -/

/-- Stable insertion of one element under a Boolean comparison. -/
def insert_le {α : Type} (le : α → α → Bool) (a : α) : List α → List α
  | [] => [a]
  | b :: t => if le a b then a :: b :: t else b :: insert_le le a t

/-- Stable insertion sort; models the pandas `sort_values` calls. -/
def sort_le {α : Type} (le : α → α → Bool) (l : List α) : List α :=
  l.foldr (insert_le le) []

/-- Tag-overlap score of a destination (`score_tags`): the number of
interests whose lowercase form equals one of the comma-separated,
stripped style tags. -/
def dest_score (interests : List String) (d : Destination) : ℕ :=
  let tags := (split_on_comma [] (lower_chars d.style_tags)).map py_strip
  (interests.filter (fun i => tags.contains (lower_chars i))).length

/-- Comparison key of `search_destinations`: score descending, then
`avg_lodging_per_night` ascending. -/
def dest_le (interests : List String) (a b : Destination) : Bool :=
  if dest_score interests a == dest_score interests b then
    decide (a.avg_lodging_per_night ≤ b.avg_lodging_per_night)
  else decide (dest_score interests b < dest_score interests a)

/-- `search_destinations`: optional case-insensitive region filter, score by
tag overlap, sort by (score desc, lodging asc), return the top 4. -/
def search_destinations (catalog : List Destination) (region : Option String)
    (interests : List String) : List Destination :=
  let df := match region with
    | none => catalog
    | some r => catalog.filter (fun d => lower_chars d.region == lower_chars r)
  (sort_le (dest_le interests) df).take 4

/-- `propose_trip_concepts`: wrap each candidate into a `TripConcept`. -/
def propose_trip_concepts (c : Constraints) (candidates : List Destination) :
    List TripConcept :=
  candidates.map (fun d =>
    { title := d.city ++ " — " ++ c.pace ++ " pace, aligned with " ++
        (if c.interests.isEmpty then "general sightseeing"
         else String.intercalate ", " c.interests),
      city := d.city,
      why := "Tags: " ++ d.style_tags ++ ". Good fit for budget and interests based on dataset.",
      destination := d })

/-- Whether an attraction's lowered tag contains any lowered interest
(the `match` column of `build_itinerary`). -/
def matches_interest (interests : List String) (a : AttractionItem) : Bool :=
  interests.any (fun i => contains_chars (lower_chars i) (lower_chars a.tag))

/-- Comparison key of `build_itinerary`: with interests, match descending
then cost ascending; without, cost ascending. -/
def attraction_le (interests : List String) (a b : AttractionItem) : Bool :=
  if interests.isEmpty then decide (a.cost_est ≤ b.cost_est)
  else
    let ma := matches_interest interests a
    let mb := matches_interest interests b
    if ma == mb then decide (a.cost_est ≤ b.cost_est) else ma && !mb

/-- The `blocks_per_day` pace table, defaulting to 3. -/
def blocks_for_pace (pace : String) : ℕ :=
  if pace == "slow" then 2 else if pace == "medium" then 3
  else if pace == "fast" then 4 else 3

/-- The allocation loop of `build_itinerary`: each day takes up to
`blocks` items off the front of the sorted list; later days may be empty. -/
def alloc_days (blocks : ℕ) : ℕ → ℕ → List AttractionItem → List DayPlan
  | _, 0, _ => []
  | d, n + 1, items =>
    { day := d, items := items.take blocks } :: alloc_days blocks (d + 1) n (items.drop blocks)

/-- `build_itinerary`: filter the attractions to the city, sort by interest
match and cost, and allocate them greedily into `days` days. -/
def build_itinerary (attractions : List AttractionItem) (city : String) (days : ℕ)
    (interests : List String) (pace : String) : Itinerary :=
  let rows := attractions.filter (fun a => lower_chars a.city == lower_chars city)
  let sorted := sort_le (attraction_le interests) rows
  { city := city, days := days, pace := pace,
    plan := alloc_days (blocks_for_pace pace) 1 days sorted }

/-- `estimate_budget` (`src/agent/tools.py` lines 69-82). -/
def estimate_budget (destination : Destination) (days : ℕ) (travelers : ℕ)
    (flight_est_per_person : ℚ) : EstBudget :=
  let lodging := destination.avg_lodging_per_night * ((days : ℚ) - 1)
  let food := destination.avg_food_per_day * (days : ℚ) * (travelers : ℚ)
  let locTransport := destination.avg_local_transport_per_day * (days : ℚ) * (travelers : ℚ)
  let flights := flight_est_per_person * (travelers : ℚ)
  let total := lodging + food + locTransport + flights
  { lodging := round2 lodging, food := round2 food, local_transport := round2 locTransport,
    flights_est := round2 flights, total_est := round2 total }

/-- All items of an itinerary in day order (the nested iteration order). -/
def itinerary_items (it : Itinerary) : List AttractionItem :=
  (it.plan.map (fun d => d.items)).flatten

/-- `estimate_activity_cost`: the rounded sum of `cost_est` over all items. -/
def estimate_activity_cost (it : Itinerary) : ℚ :=
  round2 (((itinerary_items it).map (fun a => a.cost_est)).sum)

/-- The inner loop of `adjust_itinerary_for_budget` over one day's items:
free items are kept, paid items are kept while the running counter is
below the cap. Returns the kept items and the updated counter. -/
def trim_items (cap : ℕ) : ℕ → List AttractionItem → List AttractionItem × ℕ
  | seen, [] => ([], seen)
  | seen, it :: rest =>
    if it.cost_est ≤ 0 then
      let r := trim_items cap seen rest
      (it :: r.1, r.2)
    else if seen < cap then
      let r := trim_items cap (seen + 1) rest
      (it :: r.1, r.2)
    else
      trim_items cap seen rest

/-- The outer loop of `adjust_itinerary_for_budget` over the days,
threading the global paid counter. -/
def trim_days (cap : ℕ) : ℕ → List DayPlan → List DayPlan
  | _, [] => []
  | seen, d :: rest =>
    let r := trim_items cap seen d.items
    { d with items := r.1 } :: trim_days cap r.2 rest

/-- `adjust_itinerary_for_budget` (`src/agent/tools.py` lines 91-105). -/
def adjust_itinerary_for_budget (it : Itinerary) (max_paid_activities : ℕ) : Itinerary :=
  { it with plan := trim_days max_paid_activities 0 it.plan }

/-! ### Graph stages (`src/agent/graph.py`) -/

/-- Rough total of a destination: `estimate_budget(...)["total_est"]`,
the budget estimate without activities. -/
def rough_total (c : Constraints) (d : Destination) : ℚ :=
  (estimate_budget d c.days c.travelers c.flight_est_per_person).total_est

/-- Comparison against the running `best_total`, where `none` models the
initial `float("inf")`. -/
def lt_inf (q : ℚ) : Option ℚ → Bool
  | none => true
  | some b => decide (q < b)

/-- The selection loop of `choose_destination`: a linear scan keeping the
strictly smaller rough total (`if total < best_total`). -/
def choose_loop (c : Constraints) :
    Option Destination → Option ℚ → List TripConcept → Option Destination × Option ℚ
  | best, bt, [] => (best, bt)
  | best, bt, opt :: rest =>
    if lt_inf (rough_total c opt.destination) bt then
      choose_loop c (some opt.destination) (some (rough_total c opt.destination)) rest
    else choose_loop c best bt rest

/-- The selection performed by `choose_destination`. -/
def choose_destination_best (c : Constraints) (options : List TripConcept) :
    Option Destination :=
  (choose_loop c none none options).1

/-- `compute_budget` (`src/agent/graph.py` lines 124-133). -/
def compute_budget (c : Constraints) (dest : Destination) (itin : Itinerary) :
    BudgetBreakdown :=
  let base := estimate_budget dest c.days c.travelers c.flight_est_per_person
  let act := estimate_activity_cost itin
  let total := base.total_est + act
  { lodging := base.lodging, food := base.food, local_transport := base.local_transport,
    flights_est := base.flights_est, total_est := base.total_est,
    activities_est := act, grand_total_est := round2 total,
    within_budget := decide (total ≤ c.budget) }

/-- The tiered paid-activity cap of `validate_and_adjust`. -/
def max_paid_for_overage (over : ℚ) : ℕ :=
  if 500 < over then 1 else if 250 < over then 2 else 3

/-- `validate_and_adjust` (`src/agent/graph.py` lines 135-162): a no-op when
within budget, otherwise trim paid activities under the tiered cap and
recompute the breakdown, holding the four base components fixed. -/
def validate_and_adjust (c : Constraints) (itin : Itinerary) (budget : BudgetBreakdown) :
    Itinerary × BudgetBreakdown :=
  if budget.within_budget then (itin, budget)
  else
    let over := budget.grand_total_est - c.budget
    let max_paid := max_paid_for_overage over
    let itin2 := adjust_itinerary_for_budget itin max_paid
    let act := estimate_activity_cost itin2
    let grand := budget.total_est + act
    let new_budget : BudgetBreakdown :=
      { lodging := budget.lodging, food := budget.food,
        local_transport := budget.local_transport, flights_est := budget.flights_est,
        total_est := budget.total_est, activities_est := act,
        grand_total_est := round2 grand, within_budget := decide (grand ≤ c.budget) }
    (itin2, new_budget)

/-! ### The pipeline (`build_graph` wiring and `app.py` invocation).
The trace is modelled by the ordered list of node names pushed by `_push`;
the rendered markdown of `finalize` is abstracted to `Option Unit`. -/

/-- The mutable `AgentState` dictionary threaded through the stages. -/
structure PipeState where
  constraints : Constraints
  trip_options : List TripConcept
  selected_destination : Option Destination
  itinerary : Option Itinerary
  budget : Option BudgetBreakdown
  final_plan : Option Unit
  history : List String
deriving DecidableEq, Repr

/-- Result of running the pipeline: success, or a fatal Python error at a
stage (carrying the state reached when the error was raised). -/
inductive RunResult where
  | ok (s : PipeState)
  | fatal (stage : String) (s : PipeState)
deriving DecidableEq, Repr

/-- The initial state (only `user_request` is set in Python; the
constraints field is not read before `parse_request` overwrites it). -/
def init_state : PipeState :=
  { constraints := default_constraints, trip_options := [], selected_destination := none,
    itinerary := none, budget := none, final_plan := none, history := [] }

/-- Sequencing of stages: a fatal error short-circuits the run. -/
def and_then (r : RunResult) (f : PipeState → RunResult) : RunResult :=
  match r with
  | .fatal st s => .fatal st s
  | .ok s => f s

/-- Stage `parse_request`. -/
def stage_parse (text : String) (s : PipeState) : RunResult :=
  .ok { s with constraints := parse_request text, history := s.history ++ ["parse_request"] }

/-- Stage `propose_options` (`make_options`). -/
def stage_options (catalog : List Destination) (s : PipeState) : RunResult :=
  let candidates := search_destinations catalog s.constraints.region s.constraints.interests
  .ok { s with trip_options := propose_trip_concepts s.constraints candidates,
               history := s.history ++ ["propose_options"] }

/-- Stage `choose_destination`: completes and records its trace entry even
when no option exists (the selection is then `None`). -/
def stage_choose (s : PipeState) : RunResult :=
  .ok { s with selected_destination := choose_destination_best s.constraints s.trip_options,
               history := s.history ++ ["choose_destination"] }

/-- Stage `build_itinerary` (`build_plan`): subscripting a `None`
destination raises a `TypeError`, modelled as a fatal result. -/
def stage_build (attractions : List AttractionItem) (s : PipeState) : RunResult :=
  match s.selected_destination with
  | none => .fatal "build_itinerary" s
  | some d =>
    .ok { s with
      itinerary := some (build_itinerary attractions d.city s.constraints.days
        s.constraints.interests s.constraints.pace),
      history := s.history ++ ["build_itinerary"] }

/-- Stage `estimate_budget` (`compute_budget`). -/
def stage_budget (s : PipeState) : RunResult :=
  match s.selected_destination, s.itinerary with
  | some d, some it =>
    .ok { s with budget := some (compute_budget s.constraints d it),
                 history := s.history ++ ["estimate_budget"] }
  | _, _ => .fatal "estimate_budget" s

/-- Stage `validate_adjust` (`validate_and_adjust`). -/
def stage_validate (s : PipeState) : RunResult :=
  match s.itinerary, s.budget with
  | some it, some b =>
    let r := validate_and_adjust s.constraints it b
    .ok { s with itinerary := some r.1, budget := some r.2,
                 history := s.history ++ ["validate_adjust"] }
  | _, _ => .fatal "validate_adjust" s

/-- Stage `finalize`: renders the final plan (abstracted). -/
def stage_finalize (s : PipeState) : RunResult :=
  match s.selected_destination, s.itinerary, s.budget with
  | some _, some _, some _ =>
    .ok { s with final_plan := some (), history := s.history ++ ["finalize"] }
  | _, _, _ => .fatal "finalize" s

/-- The full pipeline in the edge order declared by `build_graph`. -/
def run_pipeline (catalog : List Destination) (attractions : List AttractionItem)
    (text : String) : RunResult :=
  and_then (stage_parse text init_state) fun s1 =>
  and_then (stage_options catalog s1) fun s2 =>
  and_then (stage_choose s2) fun s3 =>
  and_then (stage_build attractions s3) fun s4 =>
  and_then (stage_budget s4) fun s5 =>
  and_then (stage_validate s5) fun s6 =>
  stage_finalize s6

/-! ### Spec-side definitions used for refinement statements -/

/-- Modelled from the spec: the first-listed concept whose value under `f`
is minimal ("Pick the concept whose destination minimizes rough total,
using first-seen order as tie-break"). -/
def argmin_first {α : Type} (f : α → ℚ) : List α → Option α
  | [] => none
  | o :: rest =>
    match argmin_first f rest with
    | none => some o
    | some b => if f b < f o then some b else some o

/-- Free item predicate of the spec (`cost_est ≤ 0`). -/
def is_free_item (a : AttractionItem) : Bool := decide (a.cost_est ≤ 0)

/-- Paid item predicate of the spec (`cost_est > 0`). -/
def is_paid_item (a : AttractionItem) : Bool := decide (0 < a.cost_est)

/-- All items of a day list in order, used to state global trimming facts. -/
def items_of (ds : List DayPlan) : List AttractionItem :=
  (ds.map (fun d => d.items)).flatten

/-! ## Lemmas about the rounding model -/

theorem rhe_intCast (n : ℤ) : rhe (n : ℚ) = n := by
  simp [rhe, Int.floor_intCast]

theorem abs_rhe_sub (q : ℚ) : |(rhe q : ℚ) - q| ≤ 1/2 := by
  have h1 : (⌊q⌋ : ℚ) ≤ q := Int.floor_le q
  have h2 : q < ⌊q⌋ + 1 := Int.lt_floor_add_one q
  unfold rhe
  split_ifs with ha hb hc
  · rw [abs_le]; constructor <;> push_cast <;> linarith
  · rw [abs_le]; constructor <;> push_cast <;> linarith
  · rw [abs_le]
    have ha' := not_lt.mp ha
    constructor <;> push_cast <;> linarith
  · rw [abs_le]
    have hb' := not_lt.mp hb
    constructor <;> push_cast <;> linarith

theorem rhe_mono {a b : ℚ} (h : a ≤ b) : rhe a ≤ rhe b := by
  rcases eq_or_lt_of_le h with rfl | hlt
  · exact le_refl _
  by_contra hc
  push_neg at hc
  have h3 : (rhe b : ℚ) + 1 ≤ (rhe a : ℚ) := by exact_mod_cast Int.add_one_le_iff.mpr hc
  have h4 := abs_rhe_sub a
  have h5 := abs_rhe_sub b
  rw [abs_le] at h4 h5
  linarith [h4.1, h4.2, h5.1, h5.2]

theorem abs_round2_sub (q : ℚ) : |round2 q - q| ≤ 1/200 := by
  have h := abs_rhe_sub (q * 100)
  rw [round2]
  have e : (rhe (q * 100) : ℚ) / 100 - q = ((rhe (q * 100) : ℚ) - q * 100) / 100 := by ring
  have h100 : |(100 : ℚ)| = 100 := by norm_num
  rw [e, abs_div, h100]
  linarith

theorem round2_eq_div (n : ℤ) : round2 ((n : ℚ) / 100) = (n : ℚ) / 100 := by
  rw [round2]
  have h : ((n : ℚ) / 100) * 100 = (n : ℚ) := by field_simp
  rw [h, rhe_intCast]

theorem round2_form (q : ℚ) : ∃ n : ℤ, round2 q = (n : ℚ) / 100 := ⟨rhe (q * 100), rfl⟩

theorem round2_fix_add {x y : ℚ} (hx : ∃ n : ℤ, x = (n : ℚ) / 100)
    (hy : ∃ m : ℤ, y = (m : ℚ) / 100) : round2 (x + y) = x + y := by
  obtain ⟨n, rfl⟩ := hx
  obtain ⟨m, rfl⟩ := hy
  have e : (n : ℚ) / 100 + (m : ℚ) / 100 = ((n + m : ℤ) : ℚ) / 100 := by push_cast; ring
  rw [e, round2_eq_div]

theorem round2_add_round2 (a b : ℚ) : round2 (round2 a + round2 b) = round2 a + round2 b :=
  round2_fix_add (round2_form a) (round2_form b)

theorem round2_mono {a b : ℚ} (h : a ≤ b) : round2 a ≤ round2 b := by
  rw [round2, round2]
  have h1 := rhe_mono (mul_le_mul_of_nonneg_right h (by norm_num : (0 : ℚ) ≤ 100))
  have h2 : (rhe (a * 100) : ℚ) ≤ (rhe (b * 100) : ℚ) := by exact_mod_cast h1
  linarith

theorem round2_zero : round2 0 = 0 := by
  have h := round2_eq_div 0
  simpa using h

theorem round2_sum_close (x1 x2 x3 x4 : ℚ) :
    |round2 (x1 + x2 + x3 + x4) - (round2 x1 + round2 x2 + round2 x3 + round2 x4)| ≤ 1/40 := by
  have h0 := abs_round2_sub (x1 + x2 + x3 + x4)
  have h1 := abs_round2_sub x1
  have h2 := abs_round2_sub x2
  have h3 := abs_round2_sub x3
  have h4 := abs_round2_sub x4
  rw [abs_le] at h0 h1 h2 h3 h4 ⊢
  constructor <;> linarith [h0.1, h0.2, h1.1, h1.2, h2.1, h2.2, h3.1, h3.2, h4.1, h4.2]

/-! ## Lemmas about itinerary allocation and trimming -/

theorem alloc_days_length (blocks : ℕ) (d n : ℕ) (items : List AttractionItem) :
    (alloc_days blocks d n items).length = n := by
  induction n generalizing d items with
  | zero => rfl
  | succ m ih => simp [alloc_days, ih]

theorem alloc_days_nil (blocks : ℕ) (d n : ℕ) :
    (alloc_days blocks d n []).map DayPlan.items = List.replicate n [] := by
  induction n generalizing d with
  | zero => rfl
  | succ m ih => simp [alloc_days, List.replicate_succ, ih]

theorem trim_days_length (cap : ℕ) (seen : ℕ) (ds : List DayPlan) :
    (trim_days cap seen ds).length = ds.length := by
  induction ds generalizing seen with
  | nil => rfl
  | cons d rest ih => simp [trim_days, ih]

theorem trim_items_sublist (cap : ℕ) (seen : ℕ) (l : List AttractionItem) :
    (trim_items cap seen l).1.Sublist l := by
  induction l generalizing seen with
  | nil => simp [trim_items]
  | cons it rest ih =>
    rw [trim_items]
    split_ifs with h1 h2
    · exact List.Sublist.cons₂ it (ih seen)
    · exact List.Sublist.cons₂ it (ih (seen + 1))
    · exact List.Sublist.cons it (ih seen)

theorem trim_items_free (cap : ℕ) (seen : ℕ) (l : List AttractionItem) :
    (trim_items cap seen l).1.filter is_free_item = l.filter is_free_item := by
  induction l generalizing seen with
  | nil => simp [trim_items]
  | cons it rest ih =>
    rw [trim_items]
    split_ifs with h1 h2
    · simp only [List.filter_cons, is_free_item]
      simp only [decide_eq_true_eq, if_pos h1]
      rw [ih seen]
    · simp only [List.filter_cons, is_free_item]
      simp only [decide_eq_true_eq, if_neg h1]
      rw [ih (seen + 1)]
    · simp only [List.filter_cons, is_free_item]
      simp only [decide_eq_true_eq, if_neg h1]
      rw [ih seen]

theorem trim_items_paid (cap : ℕ) (seen : ℕ) (l : List AttractionItem) :
    (trim_items cap seen l).1.filter is_paid_item = (l.filter is_paid_item).take (cap - seen) := by
  induction l generalizing seen with
  | nil => simp [trim_items]
  | cons it rest ih =>
    rw [trim_items]
    split_ifs with h1 h2
    · have hnp : ¬ is_paid_item it = true := by
        simp only [is_paid_item, decide_eq_true_eq, not_lt]
        exact h1
      simp only [List.filter_cons_of_neg hnp]
      exact ih seen
    · have hp : is_paid_item it = true := by
        simp only [is_paid_item, decide_eq_true_eq]
        exact lt_of_not_le h1
      simp only [List.filter_cons_of_pos hp]
      have e : cap - seen = (cap - (seen + 1)) + 1 := by omega
      rw [e, List.take_succ_cons]
      rw [ih (seen + 1)]
    · have hp : is_paid_item it = true := by
        simp only [is_paid_item, decide_eq_true_eq]
        exact lt_of_not_le h1
      have e : cap - seen = 0 := by omega
      simp only [List.filter_cons_of_pos hp, e, List.take_zero]
      rw [ih seen]
      have e2 : cap - seen = 0 := by omega
      simp [e2]

theorem trim_items_count (cap : ℕ) (seen : ℕ) (l : List AttractionItem) :
    (trim_items cap seen l).2 = seen + min (l.filter is_paid_item).length (cap - seen) := by
  induction l generalizing seen with
  | nil => simp [trim_items]
  | cons it rest ih =>
    rw [trim_items]
    split_ifs with h1 h2
    · have hnp : ¬ is_paid_item it = true := by
        simp only [is_paid_item, decide_eq_true_eq, not_lt]
        exact h1
      simp only [List.filter_cons_of_neg hnp]
      exact ih seen
    · have hp : is_paid_item it = true := by
        simp only [is_paid_item, decide_eq_true_eq]
        exact lt_of_not_le h1
      simp only [List.filter_cons_of_pos hp, List.length_cons]
      rw [ih (seen + 1)]
      omega
    · have hp : is_paid_item it = true := by
        simp only [is_paid_item, decide_eq_true_eq]
        exact lt_of_not_le h1
      simp only [List.filter_cons_of_pos hp, List.length_cons]
      rw [ih seen]
      omega

theorem trim_days_forall (cap : ℕ) (seen : ℕ) (ds : List DayPlan) :
    List.Forall₂ (fun dOut dIn => dOut.day = dIn.day ∧ dOut.items.Sublist dIn.items ∧
      dOut.items.filter is_free_item = dIn.items.filter is_free_item)
      (trim_days cap seen ds) ds := by
  induction ds generalizing seen with
  | nil => exact List.Forall₂.nil
  | cons d rest ih =>
    exact List.Forall₂.cons
      ⟨rfl, trim_items_sublist cap seen d.items, trim_items_free cap seen d.items⟩
      (ih (trim_items cap seen d.items).2)

theorem trim_days_paid (cap : ℕ) (seen : ℕ) (ds : List DayPlan) :
    (items_of (trim_days cap seen ds)).filter is_paid_item =
      ((items_of ds).filter is_paid_item).take (cap - seen) := by
  induction ds generalizing seen with
  | nil => simp [trim_days, items_of]
  | cons d rest ih =>
    simp only [trim_days, items_of, List.map_cons, List.flatten_cons, List.filter_append]
    rw [trim_items_paid cap seen d.items]
    rw [List.take_append_eq_append_take]
    have h1 : (d.items.filter is_paid_item).take (cap - seen) =
        (d.items.filter is_paid_item).take (cap - seen) := rfl
    have h2 := ih (trim_items cap seen d.items).2
    simp only [items_of] at h2
    rw [h2, trim_items_count cap seen d.items]
    congr 1
    · congr 1
      omega

theorem trim_days_items_sublist (cap : ℕ) (seen : ℕ) (ds : List DayPlan) :
    (items_of (trim_days cap seen ds)).Sublist (items_of ds) := by
  induction ds generalizing seen with
  | nil => simp [trim_days, items_of]
  | cons d rest ih =>
    simp only [trim_days, items_of, List.map_cons, List.flatten_cons]
    exact List.Sublist.append (trim_items_sublist cap seen d.items)
      (by simpa [items_of] using ih (trim_items cap seen d.items).2)

/-! ## Lemmas about the destination selection loop -/

theorem argmin_first_eq_none {α : Type} (f : α → ℚ) (l : List α) :
    argmin_first f l = none ↔ l = [] := by
  cases l with
  | nil => simp [argmin_first]
  | cons o rest =>
    simp only [argmin_first]
    cases h : argmin_first f rest with
    | none => simp
    | some b =>
      by_cases hlt : f b < f o <;> simp [hlt]

theorem argmin_first_decomp {α : Type} (f : α → ℚ) (l : List α) (b : α)
    (h : argmin_first f l = some b) :
    ∃ pre post, l = pre ++ b :: post ∧ (∀ x ∈ l, f b ≤ f x) ∧ (∀ x ∈ pre, f b < f x) := by
  induction l generalizing b with
  | nil => simp [argmin_first] at h
  | cons o rest ih =>
    rw [argmin_first] at h
    cases hr : argmin_first f rest with
    | none =>
      simp only [hr] at h
      obtain rfl : o = b := Option.some.inj h
      have hrest : rest = [] := (argmin_first_eq_none f rest).mp hr
      subst hrest
      exact ⟨[], [], rfl, by simp, by simp⟩
    | some c =>
      simp only [hr] at h
      by_cases hlt : f c < f o
      · rw [if_pos hlt] at h
        obtain rfl : c = b := Option.some.inj h
        obtain ⟨pre, post, he, hmin, hpre⟩ := ih _ hr
        refine ⟨o :: pre, post, by rw [he]; rfl, ?_, ?_⟩
        · intro x hx
          rcases List.mem_cons.mp hx with rfl | hx2
          · exact le_of_lt hlt
          · exact hmin x hx2
        · intro x hx
          rcases List.mem_cons.mp hx with rfl | hx2
          · exact hlt
          · exact hpre x hx2
      · rw [if_neg hlt] at h
        obtain rfl : o = b := Option.some.inj h
        obtain ⟨pre, post, he, hmin, hpre⟩ := ih _ hr
        refine ⟨[], rest, rfl, ?_, by simp⟩
        intro x hx
        rcases List.mem_cons.mp hx with rfl | hx2
        · exact le_refl _
        · exact le_trans (not_lt.mp hlt) (hmin x hx2)

theorem choose_loop_acc (c : Constraints) (d : Destination) (t : ℚ) (l : List TripConcept) :
    choose_loop c (some d) (some t) l =
      match argmin_first (fun o => rough_total c o.destination) l with
      | none => (some d, some t)
      | some b =>
        if rough_total c b.destination < t
        then (some b.destination, some (rough_total c b.destination))
        else (some d, some t) := by
  induction l generalizing d t with
  | nil => rfl
  | cons o rest ih =>
    rw [choose_loop, argmin_first]
    by_cases ho : rough_total c o.destination < t
    · have hcond : lt_inf (rough_total c o.destination) (some t) = true := by
        simp [lt_inf, ho]
      rw [if_pos hcond, ih]
      cases hr : argmin_first (fun o => rough_total c o.destination) rest with
      | none => simp [hr, ho]
      | some b =>
        by_cases hlt : rough_total c b.destination < rough_total c o.destination
        · simp [hr, hlt, ho, lt_trans hlt ho]
        · simp [hr, hlt, ho]
    · have hcond : ¬ lt_inf (rough_total c o.destination) (some t) = true := by
        simp [lt_inf, ho]
      rw [if_neg hcond, ih]
      cases hr : argmin_first (fun o => rough_total c o.destination) rest with
      | none => simp [hr, ho]
      | some b =>
        by_cases hlt : rough_total c b.destination < rough_total c o.destination
        · simp [hr, hlt]
        · have hob : ¬ rough_total c b.destination < t := by
            have h1 : t ≤ rough_total c o.destination := not_lt.mp ho
            have h2 : rough_total c o.destination ≤ rough_total c b.destination := not_lt.mp hlt
            exact not_lt.mpr (le_trans h1 h2)
          simp [hr, hlt, ho, hob]

theorem choose_best_eq_argmin (c : Constraints) (l : List TripConcept) :
    choose_destination_best c l =
      (argmin_first (fun o => rough_total c o.destination) l).map (fun o => o.destination) := by
  cases l with
  | nil => rfl
  | cons o rest =>
    rw [choose_destination_best, choose_loop]
    have hcond : lt_inf (rough_total c o.destination) none = true := rfl
    rw [if_pos hcond, choose_loop_acc, argmin_first]
    cases hr : argmin_first (fun o => rough_total c o.destination) rest with
    | none => simp [hr]
    | some b =>
      by_cases hlt : rough_total c b.destination < rough_total c o.destination
      · simp [hr, hlt]
      · simp [hr, hlt]

/-! ## Bounds on the matched day and traveler counts -/

theorem digits_val_pair_le (c1 c2 : Char) (h1 : is_digit_ch c1 = true)
    (h2 : is_digit_ch c2 = true) : digits_val [c1, c2] ≤ 99 := by
  simp only [is_digit_ch, decide_eq_true_eq] at h1 h2
  simp only [digits_val, List.foldl_cons, List.foldl_nil]
  omega

theorem digits_val_single_le (c1 : Char) (h1 : is_digit_ch c1 = true) :
    digits_val [c1] ≤ 99 := by
  simp only [is_digit_ch, decide_eq_true_eq] at h1
  simp only [digits_val, List.foldl_cons, List.foldl_nil]
  omega

theorem try_days_at_le (l : List Char) (n : ℕ) (h : try_days_at l = some n) : n ≤ 99 := by
  match l with
  | [] => simp [try_days_at] at h
  | [c1] => simp [try_days_at] at h
  | c1 :: c2 :: rest =>
    rw [try_days_at] at h
    split_ifs at h with hd hb1 hb2 hb3 hb4 hd1 hc1 hc2 <;>
      first
        | exact Option.noConfusion h
        | (obtain rfl := Option.some.inj h
           first
             | (have hd' : is_digit_ch c1 = true ∧ is_digit_ch c2 = true := by simpa using hd
                first
                  | exact digits_val_pair_le _ _ hd'.1 hd'.2
                  | exact digits_val_single_le _ hd'.1)
             | exact digits_val_single_le _ hd1)

theorem scan_days_le (l : List Char) : ∀ (prev : Bool) (n : ℕ),
    scan_days prev l = some n → n ≤ 99 := by
  induction l with
  | nil => intro prev n h; simp [scan_days] at h
  | cons c rest ih =>
    intro prev n h
    rw [scan_days] at h
    cases hi : (if !prev && is_digit_ch c then try_days_at (c :: rest) else none) with
    | some m =>
      rw [hi] at h
      obtain rfl := Option.some.inj h
      by_cases hc : (!prev && is_digit_ch c) = true
      · rw [if_pos hc] at hi
        exact try_days_at_le _ _ hi
      · rw [if_neg hc] at hi
        simp at hi
    | none =>
      rw [hi] at h
      exact ih _ _ h

theorem try_trav_digits_le (r : List Char) (n : ℕ) (h : try_trav_digits r = some n) :
    n ≤ 99 := by
  match r with
  | [] => exact Option.noConfusion h
  | [c1] => exact Option.noConfusion h
  | c1 :: c2 :: rest =>
    rw [try_trav_digits] at h
    split_ifs at h with hd hb1 hb2 hd1 hc1 <;>
      first
        | exact Option.noConfusion h
        | (obtain rfl := Option.some.inj h
           first
             | (have hd' : is_digit_ch c1 = true ∧ is_digit_ch c2 = true := by simpa using hd
                first
                  | exact digits_val_pair_le _ _ hd'.1 hd'.2
                  | exact digits_val_single_le _ hd'.1)
             | exact digits_val_single_le _ hd1)

theorem try_trav_at_le (l : List Char) (n : ℕ) (h : try_trav_at l = some n) : n ≤ 99 := by
  rw [try_trav_at] at h
  cases hs : skip_ws1 l with
  | none => rw [hs] at h; exact Option.noConfusion h
  | some r =>
    rw [hs] at h
    exact try_trav_digits_le r n h

theorem scan_trav_le (l : List Char) : ∀ (prev : Bool) (n : ℕ),
    scan_trav prev l = some n → n ≤ 99 := by
  induction l with
  | nil => intro prev n h; simp [scan_trav] at h
  | cons c rest ih =>
    intro prev n h
    rw [scan_trav] at h
    cases hi : (if !prev && c == 'f' then
                  match expect_str ['o', 'r'] rest with
                  | some r2 => try_trav_at r2
                  | none => none
                else none) with
    | some m =>
      rw [hi] at h
      obtain rfl := Option.some.inj h
      by_cases hc : (!prev && c == 'f') = true
      · rw [if_pos hc] at hi
        cases he : expect_str ['o', 'r'] rest with
        | none => rw [he] at hi; exact Option.noConfusion hi
        | some r2 =>
          rw [he] at hi
          exact try_trav_at_le _ _ hi
      · rw [if_neg hc] at hi
        exact Option.noConfusion hi
    | none =>
      rw [hi] at h
      exact ih _ _ h

/-! ## Budget arithmetic helpers -/

theorem compute_budget_grand_eq (c : Constraints) (dest : Destination) (itin : Itinerary) :
    (compute_budget c dest itin).grand_total_est =
      (estimate_budget dest c.days c.travelers c.flight_est_per_person).total_est +
        estimate_activity_cost itin :=
  round2_add_round2 _ _

theorem compute_budget_flag (c : Constraints) (dest : Destination) (itin : Itinerary) :
    (compute_budget c dest itin).within_budget =
      decide ((compute_budget c dest itin).grand_total_est ≤ c.budget) := by
  rw [compute_budget_grand_eq]
  rfl

theorem act_cost_form (it : Itinerary) : ∃ m : ℤ, estimate_activity_cost it = (m : ℚ) / 100 :=
  ⟨_, rfl⟩

theorem compute_total_form (c : Constraints) (dest : Destination) (itin : Itinerary) :
    ∃ n : ℤ, (compute_budget c dest itin).total_est = (n : ℚ) / 100 :=
  ⟨_, rfl⟩

theorem validate_flag_of (c : Constraints) (itin : Itinerary) (b : BudgetBreakdown)
    (htot : ∃ n : ℤ, b.total_est = (n : ℚ) / 100)
    (hflag : b.within_budget = decide (b.grand_total_est ≤ c.budget)) :
    (validate_and_adjust c itin b).2.within_budget =
      decide ((validate_and_adjust c itin b).2.grand_total_est ≤ c.budget) := by
  rw [validate_and_adjust]
  cases hw : b.within_budget with
  | true => simpa [hw] using hflag
  | false =>
    simp only [hw, Bool.false_eq_true, if_false]
    have hfix : round2 (b.total_est +
        estimate_activity_cost (adjust_itinerary_for_budget itin
          (max_paid_for_overage (b.grand_total_est - c.budget)))) =
        b.total_est + estimate_activity_cost (adjust_itinerary_for_budget itin
          (max_paid_for_overage (b.grand_total_est - c.budget))) :=
      round2_fix_add htot (act_cost_form _)
    simp only [hfix]

theorem act_cost_mono (it : Itinerary) (cap : ℕ)
    (hpos : ∀ a ∈ itinerary_items it, 0 ≤ a.cost_est) :
    estimate_activity_cost (adjust_itinerary_for_budget it cap) ≤ estimate_activity_cost it := by
  apply round2_mono
  apply List.Sublist.sum_le_sum
  · exact List.Sublist.map _ (trim_days_items_sublist cap 0 it.plan)
  · intro x hx
    obtain ⟨a, ha, rfl⟩ := List.mem_map.mp hx
    exact hpos a ha

theorem compute_budget_lodging (c : Constraints) (dest : Destination) (itin : Itinerary) :
    (compute_budget c dest itin).lodging =
      round2 (dest.avg_lodging_per_night * ((c.days : ℚ) - 1)) := rfl

theorem compute_budget_food (c : Constraints) (dest : Destination) (itin : Itinerary) :
    (compute_budget c dest itin).food =
      round2 (dest.avg_food_per_day * (c.days : ℚ) * (c.travelers : ℚ)) := rfl

theorem compute_budget_local (c : Constraints) (dest : Destination) (itin : Itinerary) :
    (compute_budget c dest itin).local_transport =
      round2 (dest.avg_local_transport_per_day * (c.days : ℚ) * (c.travelers : ℚ)) := rfl

theorem compute_budget_flights (c : Constraints) (dest : Destination) (itin : Itinerary) :
    (compute_budget c dest itin).flights_est =
      round2 (c.flight_est_per_person * (c.travelers : ℚ)) := rfl

theorem compute_budget_total (c : Constraints) (dest : Destination) (itin : Itinerary) :
    (compute_budget c dest itin).total_est =
      round2 (dest.avg_lodging_per_night * ((c.days : ℚ) - 1) +
        dest.avg_food_per_day * (c.days : ℚ) * (c.travelers : ℚ) +
        dest.avg_local_transport_per_day * (c.days : ℚ) * (c.travelers : ℚ) +
        c.flight_est_per_person * (c.travelers : ℚ)) := rfl

theorem compute_budget_activities (c : Constraints) (dest : Destination) (itin : Itinerary) :
    (compute_budget c dest itin).activities_est = estimate_activity_cost itin := rfl

theorem estimate_total_eq (dest : Destination) (days travelers : ℕ) (flight : ℚ) :
    (estimate_budget dest days travelers flight).total_est =
      round2 (dest.avg_lodging_per_night * ((days : ℚ) - 1) +
        dest.avg_food_per_day * (days : ℚ) * (travelers : ℚ) +
        dest.avg_local_transport_per_day * (days : ℚ) * (travelers : ℚ) +
        flight * (travelers : ℚ)) := rfl

/-! ## Claim theorems -/

/-- C1: for every pipeline run, the `within_budget` flag equals the
comparison `grand_total_est ≤ Constraints.budget`, both in the breakdown
produced by `compute_budget` (the EstimateBudget stage) and in the
breakdown produced by `validate_and_adjust` over it (the ValidateAdjust
stage). The flag is computed from the un-rounded running total, but that
total is a sum of two already-rounded values, hence equal to
`grand_total_est`. -/
theorem within_budget_flag (c : Constraints) (dest : Destination) (itin : Itinerary) :
    ((compute_budget c dest itin).within_budget =
       decide ((compute_budget c dest itin).grand_total_est ≤ c.budget)) ∧
    ((validate_and_adjust c itin (compute_budget c dest itin)).2.within_budget =
       decide ((validate_and_adjust c itin (compute_budget c dest itin)).2.grand_total_est ≤
         c.budget)) :=
  ⟨compute_budget_flag c dest itin,
   validate_flag_of c itin _ (compute_total_form c dest itin) (compute_budget_flag c dest itin)⟩

/-- C4: in every breakdown produced by the pipeline (at EstimateBudget and
after ValidateAdjust), `grand_total_est` equals
`lodging + food + local_transport + flights_est + activities_est` up to the
rounding of each value to 2 decimals: the difference is at most 1/40
(five half-cent rounding slacks: the four base components and the base total). -/
theorem grand_total_decomposition (c : Constraints) (dest : Destination) (itin : Itinerary) :
    |(compute_budget c dest itin).grand_total_est -
       ((compute_budget c dest itin).lodging + (compute_budget c dest itin).food +
        (compute_budget c dest itin).local_transport + (compute_budget c dest itin).flights_est +
        (compute_budget c dest itin).activities_est)| ≤ 1/40 ∧
    |(validate_and_adjust c itin (compute_budget c dest itin)).2.grand_total_est -
       ((validate_and_adjust c itin (compute_budget c dest itin)).2.lodging +
        (validate_and_adjust c itin (compute_budget c dest itin)).2.food +
        (validate_and_adjust c itin (compute_budget c dest itin)).2.local_transport +
        (validate_and_adjust c itin (compute_budget c dest itin)).2.flights_est +
        (validate_and_adjust c itin (compute_budget c dest itin)).2.activities_est)| ≤ 1/40 := by
  have hpart1 : |(compute_budget c dest itin).grand_total_est -
      ((compute_budget c dest itin).lodging + (compute_budget c dest itin).food +
       (compute_budget c dest itin).local_transport + (compute_budget c dest itin).flights_est +
       (compute_budget c dest itin).activities_est)| ≤ 1/40 := by
    rw [compute_budget_grand_eq, estimate_total_eq, compute_budget_lodging,
      compute_budget_food, compute_budget_local, compute_budget_flights,
      compute_budget_activities]
    have e : round2 (dest.avg_lodging_per_night * ((c.days : ℚ) - 1) +
          dest.avg_food_per_day * (c.days : ℚ) * (c.travelers : ℚ) +
          dest.avg_local_transport_per_day * (c.days : ℚ) * (c.travelers : ℚ) +
          c.flight_est_per_person * (c.travelers : ℚ)) + estimate_activity_cost itin -
        (round2 (dest.avg_lodging_per_night * ((c.days : ℚ) - 1)) +
         round2 (dest.avg_food_per_day * (c.days : ℚ) * (c.travelers : ℚ)) +
         round2 (dest.avg_local_transport_per_day * (c.days : ℚ) * (c.travelers : ℚ)) +
         round2 (c.flight_est_per_person * (c.travelers : ℚ)) + estimate_activity_cost itin) =
        round2 (dest.avg_lodging_per_night * ((c.days : ℚ) - 1) +
          dest.avg_food_per_day * (c.days : ℚ) * (c.travelers : ℚ) +
          dest.avg_local_transport_per_day * (c.days : ℚ) * (c.travelers : ℚ) +
          c.flight_est_per_person * (c.travelers : ℚ)) -
        (round2 (dest.avg_lodging_per_night * ((c.days : ℚ) - 1)) +
         round2 (dest.avg_food_per_day * (c.days : ℚ) * (c.travelers : ℚ)) +
         round2 (dest.avg_local_transport_per_day * (c.days : ℚ) * (c.travelers : ℚ)) +
         round2 (c.flight_est_per_person * (c.travelers : ℚ))) := by ring
    rw [e]
    exact round2_sum_close _ _ _ _
  refine ⟨hpart1, ?_⟩
  rw [validate_and_adjust]
  cases hw : (compute_budget c dest itin).within_budget with
  | true => simpa using hpart1
  | false =>
    simp only [Bool.false_eq_true, if_false]
    simp only [compute_budget_total, compute_budget_lodging, compute_budget_food,
      compute_budget_local, compute_budget_flights]
    rw [round2_fix_add (round2_form _) (act_cost_form _)]
    have e : round2 (dest.avg_lodging_per_night * ((c.days : ℚ) - 1) +
          dest.avg_food_per_day * (c.days : ℚ) * (c.travelers : ℚ) +
          dest.avg_local_transport_per_day * (c.days : ℚ) * (c.travelers : ℚ) +
          c.flight_est_per_person * (c.travelers : ℚ)) +
        estimate_activity_cost (adjust_itinerary_for_budget itin
          (max_paid_for_overage ((compute_budget c dest itin).grand_total_est - c.budget))) -
        (round2 (dest.avg_lodging_per_night * ((c.days : ℚ) - 1)) +
         round2 (dest.avg_food_per_day * (c.days : ℚ) * (c.travelers : ℚ)) +
         round2 (dest.avg_local_transport_per_day * (c.days : ℚ) * (c.travelers : ℚ)) +
         round2 (c.flight_est_per_person * (c.travelers : ℚ)) +
         estimate_activity_cost (adjust_itinerary_for_budget itin
           (max_paid_for_overage ((compute_budget c dest itin).grand_total_est - c.budget)))) =
        round2 (dest.avg_lodging_per_night * ((c.days : ℚ) - 1) +
          dest.avg_food_per_day * (c.days : ℚ) * (c.travelers : ℚ) +
          dest.avg_local_transport_per_day * (c.days : ℚ) * (c.travelers : ℚ) +
          c.flight_est_per_person * (c.travelers : ℚ)) -
        (round2 (dest.avg_lodging_per_night * ((c.days : ℚ) - 1)) +
         round2 (dest.avg_food_per_day * (c.days : ℚ) * (c.travelers : ℚ)) +
         round2 (dest.avg_local_transport_per_day * (c.days : ℚ) * (c.travelers : ℚ)) +
         round2 (c.flight_est_per_person * (c.travelers : ℚ))) := by ring
    rw [e]
    exact round2_sum_close _ _ _ _

/-- C6: `estimate_budget` computes lodging from `days - 1` nights, food and
local transport scaled by days and travelers, flights scaled by travelers,
and the total as the rounded sum of the four raw values; `days = 1` gives
zero lodging. -/
theorem estimate_budget_formulas (dest : Destination) (days travelers : ℕ) (flight : ℚ) :
    (estimate_budget dest days travelers flight).lodging =
        round2 (dest.avg_lodging_per_night * ((days : ℚ) - 1)) ∧
    (estimate_budget dest days travelers flight).food =
        round2 (dest.avg_food_per_day * (days : ℚ) * (travelers : ℚ)) ∧
    (estimate_budget dest days travelers flight).local_transport =
        round2 (dest.avg_local_transport_per_day * (days : ℚ) * (travelers : ℚ)) ∧
    (estimate_budget dest days travelers flight).flights_est =
        round2 (flight * (travelers : ℚ)) ∧
    (estimate_budget dest days travelers flight).total_est =
        round2 (dest.avg_lodging_per_night * ((days : ℚ) - 1) +
          dest.avg_food_per_day * (days : ℚ) * (travelers : ℚ) +
          dest.avg_local_transport_per_day * (days : ℚ) * (travelers : ℚ) +
          flight * (travelers : ℚ)) ∧
    (estimate_budget dest 1 travelers flight).lodging = 0 := by
  refine ⟨rfl, rfl, rfl, rfl, rfl, ?_⟩
  show round2 (dest.avg_lodging_per_night * (((1 : ℕ) : ℚ) - 1)) = 0
  have e : dest.avg_lodging_per_night * (((1 : ℕ) : ℚ) - 1) = 0 := by norm_num
  rw [e, round2_zero]

/-- C7: when `validate_and_adjust` runs over budget, the itinerary is trimmed
with the cap determined solely by the overage `grand_total_est - budget`:
overage above 500 gives cap 1, overage in (250, 500] gives cap 2, and
overage at most 250 gives cap 3. -/
theorem validate_adjust_cap_tiers (c : Constraints) (itin : Itinerary) (b : BudgetBreakdown)
    (h : b.within_budget = false) :
    (validate_and_adjust c itin b).1 =
      adjust_itinerary_for_budget itin (max_paid_for_overage (b.grand_total_est - c.budget)) ∧
    (500 < b.grand_total_est - c.budget →
      max_paid_for_overage (b.grand_total_est - c.budget) = 1) ∧
    (250 < b.grand_total_est - c.budget ∧ b.grand_total_est - c.budget ≤ 500 →
      max_paid_for_overage (b.grand_total_est - c.budget) = 2) ∧
    (b.grand_total_est - c.budget ≤ 250 →
      max_paid_for_overage (b.grand_total_est - c.budget) = 3) := by
  refine ⟨?_, ?_, ?_, ?_⟩
  · simp [validate_and_adjust, h]
  · intro h1
    simp [max_paid_for_overage, h1]
  · rintro ⟨h1, h2⟩
    have h3 : ¬ 500 < b.grand_total_est - c.budget := not_lt.mpr h2
    simp [max_paid_for_overage, h3, h1]
  · intro h1
    have h2 : ¬ 500 < b.grand_total_est - c.budget := by
      simp only [not_lt]
      linarith
    have h3 : ¬ 250 < b.grand_total_est - c.budget := not_lt.mpr h1
    simp [max_paid_for_overage, h2, h3]

/-- Witness for C7: the three tiers at the concrete overages 600, 300 and
100 of the spec's Scenario B, obtained by applying the theorem to concrete
over-budget breakdowns. -/
theorem validate_adjust_cap_tiers_witness :
    max_paid_for_overage 600 = 1 ∧ max_paid_for_overage 300 = 2 ∧
      max_paid_for_overage 100 = 3 := by
  have h1 := validate_adjust_cap_tiers { default_constraints with budget := 0 }
    ⟨"x", 1, "slow", []⟩ ⟨0, 0, 0, 0, 0, 0, 600, false⟩ rfl
  have h2 := validate_adjust_cap_tiers { default_constraints with budget := 0 }
    ⟨"x", 1, "slow", []⟩ ⟨0, 0, 0, 0, 0, 0, 300, false⟩ rfl
  have h3 := validate_adjust_cap_tiers { default_constraints with budget := 0 }
    ⟨"x", 1, "slow", []⟩ ⟨0, 0, 0, 0, 0, 0, 100, false⟩ rfl
  refine ⟨?_, ?_, ?_⟩
  · have := h1.2.1 (by norm_num)
    simpa using this
  · have := h2.2.2.1 (by norm_num)
    simpa using this
  · have := h3.2.2.2 (by norm_num)
    simpa using this

/-- C5: `build_itinerary` always returns a plan with exactly `days` day
records, the budget adjustment preserves that length, and a city with no
attraction rows yields `days` days each with an empty item list rather
than an error. -/
theorem build_itinerary_day_count (attractions : List AttractionItem) (city : String)
    (days : ℕ) (interests : List String) (pace : String) (cap : ℕ) :
    (build_itinerary attractions city days interests pace).plan.length = days ∧
    (adjust_itinerary_for_budget (build_itinerary attractions city days interests pace)
        cap).plan.length = days ∧
    (attractions.filter (fun a => lower_chars a.city == lower_chars city) = [] →
      (build_itinerary attractions city days interests pace).plan.map DayPlan.items =
        List.replicate days []) := by
  refine ⟨?_, ?_, ?_⟩
  · exact alloc_days_length _ _ _ _
  · show (trim_days cap 0 _).length = days
    rw [trim_days_length]
    exact alloc_days_length _ _ _ _
  · intro h
    show (alloc_days (blocks_for_pace pace) 1 days
        (sort_le (attraction_le interests)
          (attractions.filter (fun a => lower_chars a.city == lower_chars city)))).map
        DayPlan.items = _
    rw [h]
    exact alloc_days_nil _ _ _

/-- Witness for C5: a city with no attraction rows, two days: both day
counts are 2 and both days are free. -/
theorem build_itinerary_day_count_witness :
    ([] : List AttractionItem).filter (fun a => lower_chars a.city == lower_chars "rome") = [] ∧
    (build_itinerary [] "rome" 2 [] "slow").plan.length = 2 ∧
    (adjust_itinerary_for_budget (build_itinerary [] "rome" 2 [] "slow") 0).plan.length = 2 ∧
    (build_itinerary [] "rome" 2 [] "slow").plan.map DayPlan.items = List.replicate 2 [] := by
  have h := build_itinerary_day_count [] "rome" 2 [] "slow" 0
  exact ⟨rfl, h.1, h.2.1, h.2.2 rfl⟩

/-- C8: for every itinerary and cap, the adjustment keeps every day (same
day number), keeps each day's items as an order-preserving sublist with all
free items (cost at most 0) retained, and the retained paid items are
exactly the first `cap` paid items of the whole itinerary in global day
order, so every paid item after the cap is reached is dropped. -/
theorem adjust_itinerary_cap (it : Itinerary) (cap : ℕ) :
    List.Forall₂ (fun dOut dIn => dOut.day = dIn.day ∧ dOut.items.Sublist dIn.items ∧
      dOut.items.filter is_free_item = dIn.items.filter is_free_item)
      (adjust_itinerary_for_budget it cap).plan it.plan ∧
    (itinerary_items (adjust_itinerary_for_budget it cap)).filter is_paid_item =
      ((itinerary_items it).filter is_paid_item).take cap := by
  constructor
  · exact trim_days_forall cap 0 it.plan
  · have h := trim_days_paid cap 0 it.plan
    simpa [itinerary_items, items_of, adjust_itinerary_for_budget] using h

/-- C9: when the pipeline's breakdown is fed to `validate_and_adjust`, the
result keeps lodging, food, local transport and flights from the prior
breakdown, its `activities_est` is recomputed from the returned itinerary,
its grand total never exceeds the prior grand total when all item costs
are non-negative, and its flag is the true comparison against the budget
(so it may remain false; the pass is applied at most once). -/
theorem validate_adjust_recompute (c : Constraints) (dest : Destination) (itin : Itinerary)
    (hpos : ∀ a ∈ itinerary_items itin, 0 ≤ a.cost_est) :
    ((validate_and_adjust c itin (compute_budget c dest itin)).2.lodging =
       (compute_budget c dest itin).lodging) ∧
    ((validate_and_adjust c itin (compute_budget c dest itin)).2.food =
       (compute_budget c dest itin).food) ∧
    ((validate_and_adjust c itin (compute_budget c dest itin)).2.local_transport =
       (compute_budget c dest itin).local_transport) ∧
    ((validate_and_adjust c itin (compute_budget c dest itin)).2.flights_est =
       (compute_budget c dest itin).flights_est) ∧
    ((validate_and_adjust c itin (compute_budget c dest itin)).2.activities_est =
       estimate_activity_cost (validate_and_adjust c itin (compute_budget c dest itin)).1) ∧
    ((validate_and_adjust c itin (compute_budget c dest itin)).2.grand_total_est ≤
       (compute_budget c dest itin).grand_total_est) ∧
    ((validate_and_adjust c itin (compute_budget c dest itin)).2.within_budget =
       decide ((validate_and_adjust c itin (compute_budget c dest itin)).2.grand_total_est ≤
         c.budget)) := by
  cases hw : (compute_budget c dest itin).within_budget with
  | true =>
    have hv : validate_and_adjust c itin (compute_budget c dest itin) =
        (itin, compute_budget c dest itin) := by
      rw [validate_and_adjust, if_pos hw]
    rw [hv]
    exact ⟨rfl, rfl, rfl, rfl, compute_budget_activities c dest itin, le_refl _,
      compute_budget_flag c dest itin⟩
  | false =>
    refine ⟨?_, ?_, ?_, ?_, ?_, ?_, ?_⟩ <;>
      simp only [validate_and_adjust, hw, Bool.false_eq_true, if_false] <;>
      try rfl
    · rw [round2_fix_add (compute_total_form c dest itin) (act_cost_form _),
        compute_budget_grand_eq]
      exact add_le_add_left (act_cost_mono itin _ hpos) _
    · rw [round2_fix_add (compute_total_form c dest itin) (act_cost_form _)]

/-- Witness for C9: a one-day itinerary with one paid activity and
non-negative costs; the adjusted grand total does not exceed the prior one. -/
theorem validate_adjust_recompute_witness :
    (validate_and_adjust default_constraints
        ⟨"x", 1, "slow", [⟨1, [⟨"x", "a", "food", 2, 10⟩]⟩]⟩
        (compute_budget default_constraints ⟨"x", "y", "europe", "food", 0, 0, 0⟩
          ⟨"x", 1, "slow", [⟨1, [⟨"x", "a", "food", 2, 10⟩]⟩]⟩)).2.grand_total_est ≤
      (compute_budget default_constraints ⟨"x", "y", "europe", "food", 0, 0, 0⟩
        ⟨"x", 1, "slow", [⟨1, [⟨"x", "a", "food", 2, 10⟩]⟩]⟩).grand_total_est :=
  (validate_adjust_recompute default_constraints ⟨"x", "y", "europe", "food", 0, 0, 0⟩
    ⟨"x", 1, "slow", [⟨1, [⟨"x", "a", "food", 2, 10⟩]⟩]⟩ (by decide)).2.2.2.2.2.1

/-- C3: for every non-empty concept list, `choose_destination` selects the
destination of a concept whose rough total is a minimum over the whole
list, and every concept listed strictly earlier has a strictly larger
rough total (the comparison is strict less-than, so the earliest minimum
wins ties). -/
theorem choose_destination_strict_min (c : Constraints) (opts : List TripConcept)
    (h : opts ≠ []) :
    ∃ pre chosen post,
      opts = pre ++ chosen :: post ∧
      choose_destination_best c opts = some chosen.destination ∧
      (∀ o ∈ opts, rough_total c chosen.destination ≤ rough_total c o.destination) ∧
      (∀ o ∈ pre, rough_total c chosen.destination < rough_total c o.destination) := by
  cases hr : argmin_first (fun o => rough_total c o.destination) opts with
  | none => exact absurd ((argmin_first_eq_none _ _).mp hr) h
  | some b =>
    obtain ⟨pre, post, he, hmin, hpre⟩ := argmin_first_decomp _ _ _ hr
    refine ⟨pre, b, post, he, ?_, hmin, hpre⟩
    rw [choose_best_eq_argmin, hr]
    rfl

/-- Witness for C3: two concepts with rough totals 1300 and 1100; the
second, strictly cheaper one is selected. -/
theorem choose_destination_strict_min_witness :
    ∃ pre chosen post,
      ([⟨"t1", "a", "w", ⟨"a", "aa", "europe", "", 100, 0, 0⟩⟩,
        ⟨"t2", "b", "w", ⟨"b", "bb", "europe", "", 50, 0, 0⟩⟩] : List TripConcept) =
          pre ++ chosen :: post ∧
      choose_destination_best default_constraints
        ([⟨"t1", "a", "w", ⟨"a", "aa", "europe", "", 100, 0, 0⟩⟩,
          ⟨"t2", "b", "w", ⟨"b", "bb", "europe", "", 50, 0, 0⟩⟩] : List TripConcept) =
        some chosen.destination ∧
      (∀ o ∈ ([⟨"t1", "a", "w", ⟨"a", "aa", "europe", "", 100, 0, 0⟩⟩,
          ⟨"t2", "b", "w", ⟨"b", "bb", "europe", "", 50, 0, 0⟩⟩] : List TripConcept),
        rough_total default_constraints chosen.destination ≤
          rough_total default_constraints o.destination) ∧
      (∀ o ∈ pre, rough_total default_constraints chosen.destination <
          rough_total default_constraints o.destination) :=
  choose_destination_strict_min default_constraints _ (by simp)

/-- C10 (amended): for every request string, the extracted `days` and
`travelers` are non-negative integers of at most two digits (at most 99),
falling back to the defaults 5 and 2 when the respective pattern is
absent; they are not always strictly positive (see the counterexample). -/
theorem parse_request_day_traveler_fields (text : String) :
    (parse_request text).days ≤ 99 ∧
    (parse_request text).travelers ≤ 99 ∧
    (scan_days false (lowered_of text) = none → (parse_request text).days = 5) ∧
    (scan_trav false (lowered_of text) = none → (parse_request text).travelers = 2) := by
  refine ⟨?_, ?_, ?_, ?_⟩
  · cases hs : scan_days false (lowered_of text) with
    | none =>
      have e : (parse_request text).days = 5 := by
        show (match scan_days false (lowered_of text) with
              | some n => n
              | none => default_constraints.days) = 5
        rw [hs]
        rfl
      rw [e]
      norm_num
    | some n =>
      have e : (parse_request text).days = n := by
        show (match scan_days false (lowered_of text) with
              | some n => n
              | none => default_constraints.days) = n
        rw [hs]
      rw [e]
      exact scan_days_le _ _ _ hs
  · cases hs : scan_trav false (lowered_of text) with
    | none =>
      have e : (parse_request text).travelers = 2 := by
        show (match scan_trav false (lowered_of text) with
              | some n => n
              | none => default_constraints.travelers) = 2
        rw [hs]
        rfl
      rw [e]
      norm_num
    | some n =>
      have e : (parse_request text).travelers = n := by
        show (match scan_trav false (lowered_of text) with
              | some n => n
              | none => default_constraints.travelers) = n
        rw [hs]
      rw [e]
      exact scan_trav_le _ _ _ hs
  · intro hs
    show (match scan_days false (lowered_of text) with
          | some n => n
          | none => default_constraints.days) = 5
    rw [hs]
    rfl
  · intro hs
    show (match scan_trav false (lowered_of text) with
          | some n => n
          | none => default_constraints.travelers) = 2
    rw [hs]
    rfl

/-- Counterexample for C10: the request "a 0-day trip for 0 people"
matches both patterns with the digit 0, so the extracted constraints have
`days = 0` and `travelers = 0`, which are not positive. -/
theorem parse_request_positive_counterexample :
    (parse_request "a 0-day trip for 0 people").days = 0 ∧
    (parse_request "a 0-day trip for 0 people").travelers = 0 := by decide

/-- Witness for C10: a request with no day or traveler pattern gets the
documented defaults. -/
theorem parse_request_day_traveler_fields_witness :
    (parse_request "hello").days = 5 ∧ (parse_request "hello").travelers = 2 := by
  have h := parse_request_day_traveler_fields "hello"
  exact ⟨h.2.2.1 (by decide), h.2.2.2 (by decide)⟩

/-- C2 (amended): when the catalog search returns zero destinations, the
proposed-concepts list is empty and ChooseDestination completes with no
selection (recording its trace entry); the run then aborts fatally at the
next stage, BuildItinerary, when it dereferences the missing destination,
so no final plan is produced. -/
theorem no_destination_aborts_at_build (catalog : List Destination)
    (attractions : List AttractionItem) (text : String)
    (h : search_destinations catalog (parse_request text).region
      (parse_request text).interests = []) :
    run_pipeline catalog attractions text =
      .fatal "build_itinerary"
        { constraints := parse_request text, trip_options := [],
          selected_destination := none, itinerary := none, budget := none,
          final_plan := none,
          history := ["parse_request", "propose_options", "choose_destination"] } := by
  simp [run_pipeline, and_then, stage_parse, stage_options, stage_choose, stage_build,
    init_state, h, propose_trip_concepts, choose_destination_best, choose_loop]

/-- Counterexample for C2: with an empty catalog the run does abort with no
final plan, but only at the BuildItinerary stage — the trace at the fatal
error already contains the completed `choose_destination` entry, so the
run does not abort before ChooseDestination completes. -/
theorem no_destination_counterexample :
    run_pipeline [] [] "trip" =
      .fatal "build_itinerary"
        { constraints := parse_request "trip", trip_options := [],
          selected_destination := none, itinerary := none, budget := none,
          final_plan := none,
          history := ["parse_request", "propose_options", "choose_destination"] } := by
  decide

/-- Witness for C2: the empty catalog matches the hypothesis of the amended
theorem, and the run aborts at BuildItinerary with no final plan. -/
theorem no_destination_aborts_witness :
    search_destinations [] (parse_request "x").region (parse_request "x").interests = [] ∧
    run_pipeline [] [] "x" =
      .fatal "build_itinerary"
        { constraints := parse_request "x", trip_options := [],
          selected_destination := none, itinerary := none, budget := none,
          final_plan := none,
          history := ["parse_request", "propose_options", "choose_destination"] } :=
  ⟨by decide, no_destination_aborts_at_build [] [] "x" (by decide)⟩

end Planning
